import Mathlib

/-!
Shallow embedding of `src/src/cedarscript_ast_parser.py` (CEDARScript AST
parser).  The external tree-sitter engine is modelled as a black box that
already produced a tree of typed nodes (`Node` below); every parsing method of
`CEDARScriptASTParser` is translated to a Lean function over that tree.
Python exceptions are modelled with `Except String`, carrying `str(e)` of the
exception as the error value.  Python's recursion limit (`RecursionError`) is
modelled by the explicit `fuel` argument of the mutually recursive region
parser.
-/

namespace Cedar

/-- Python `str.casefold`, restricted to the ASCII node-type vocabulary the
parser compares against (on ASCII, `casefold` agrees with lowercasing each
character). -/
def pyCasefold (s : String) : String := ⟨s.toList.map Char.toLower⟩

/-- Python `str.strip(chars)` on a character list: remove ALL leading and
trailing characters that occur in `chars` (not just one layer). -/
def pyStripChars (l : List Char) (chars : List Char) : List Char :=
  ((l.dropWhile (fun c => decide (c ∈ chars))).reverse.dropWhile
    (fun c => decide (c ∈ chars))).reverse

/-- Python `str.strip(chars)`. -/
def pyStrip (s : String) (chars : List Char) : String :=
  ⟨pyStripChars s.toList chars⟩

/-- Python `str.replace(old, new)` on character lists: replace every
non-overlapping occurrence, scanning left to right.  The `fuel` argument is
only there to make the recursion structural; `pyReplace` passes the input's
length, which is never exhausted because every step consumes at least one
character (so the `0, s` base case is unreachable for a non-empty `old`, and
Python's behaviour for an empty `old` is never exercised by the parser, which
only replaces two-character escape sequences). -/
def pyReplaceL : Nat → List Char → List Char → List Char → List Char
  | 0, s, _, _ => s
  | _ + 1, [], _, _ => []
  | fuel + 1, c :: rest, old, new =>
    if old ≠ [] ∧ old.isPrefixOf (c :: rest) then
      new ++ pyReplaceL fuel ((c :: rest).drop old.length) old new
    else
      c :: pyReplaceL fuel rest old new

/-- Python `str.replace(old, new)`. -/
def pyReplace (s old new : String) : String :=
  ⟨pyReplaceL s.toList.length s.toList old.toList new.toList⟩

/-- Python `str.endswith` (over the character lists). -/
def pyEndsWith (s p : String) : Bool :=
  p.toList.isSuffixOf s.toList

/-- Python `str.removeprefix`: drop `p` from the front when it is a prefix. -/
def pyDropPre (s p : String) : String :=
  if p.toList.isPrefixOf s.toList then ⟨s.toList.drop p.toList.length⟩ else s

/-- Python `str.removesuffix`: drop `p` from the back when it is a suffix. -/
def pyDropSuf (s p : String) : String :=
  if pyEndsWith s p then ⟨s.toList.take (s.toList.length - p.toList.length)⟩ else s

/-- The whitespace characters Python's default `str.strip()` and `int()`
remove (the ASCII ones, which are all that can occur here). -/
def wsChars : List Char := [' ', '\t', '\n', '\r', '\x0b', '\x0c']

/-- Value of a list of decimal digit characters. -/
def digitsVal (l : List Char) : Nat :=
  l.foldl (fun acc c => acc * 10 + (c.toNat - 48)) 0

/-- Python `int(text)`: strip whitespace, optional sign, then decimal digits;
raises `ValueError` otherwise. -/
def pyInt (s : String) : Except String Int :=
  let l := pyStripChars s.toList wsChars
  let signAndMag : Int × List Char :=
    if l.head? = some '-' then (-1, l.tail)
    else if l.head? = some '+' then (1, l.tail)
    else (1, l)
  if !signAndMag.2.isEmpty && signAndMag.2.all (·.isDigit) then
    Except.ok (signAndMag.1 * (digitsVal signAndMag.2 : Int))
  else
    Except.error ("invalid literal for int() with base 10: " ++ s)

/-- Python `sep.join(items)`. -/
def pyJoin (sep : String) : List String → String
  | [] => ""
  | [x] => x
  | x :: y :: rest => x ++ sep ++ pyJoin sep (y :: rest)

/-- Python slicing `text[a:b]` with non-negative bounds. -/
def pySlice (s : String) (a b : Nat) : String :=
  ⟨(s.toList.drop a).take (b - a)⟩

/-- A node of the syntax tree handed over by the external parsing engine
(tree-sitter): a `type` tag, the node's source text (`text.decode('utf8')`),
whether the node is named, the engine's `has_error` flag, the start position
(`start_point`) and byte range, and the ordered child list. -/
inductive Node where
  | mk (type text : String) (isNamed hasError : Bool)
       (startRow startCol startByte endByte : Nat)
       (children : List Node)

def Node.type : Node → String
  | .mk t _ _ _ _ _ _ _ _ => t

def Node.text : Node → String
  | .mk _ t _ _ _ _ _ _ _ => t

def Node.isNamed : Node → Bool
  | .mk _ _ b _ _ _ _ _ _ => b

def Node.hasError : Node → Bool
  | .mk _ _ _ b _ _ _ _ _ => b

def Node.startRow : Node → Nat
  | .mk _ _ _ _ r _ _ _ _ => r

def Node.startCol : Node → Nat
  | .mk _ _ _ _ _ c _ _ _ => c

def Node.startByte : Node → Nat
  | .mk _ _ _ _ _ _ s _ _ => s

def Node.endByte : Node → Nat
  | .mk _ _ _ _ _ _ _ e _ => e

def Node.children : Node → List Node
  | .mk _ _ _ _ _ _ _ _ cs => cs

theorem Node.sizeOf_children_lt (n : Node) : sizeOf n.children < sizeOf n := by
  cases n with
  | mk t tx nm he r c sb eb cs => simp [Node.children]

/-- tree-sitter `node.named_children`. -/
def Node.namedChildren (n : Node) : List Node :=
  n.children.filter (·.isNamed)

/-- `CEDARScriptASTParser.find_first_by_type` with a single type string. -/
def find_first_by_type (nodes : List Node) (t : String) : Option Node :=
  nodes.find? (fun c => c.type == t)

/-- `CEDARScriptASTParser.find_first_by_type` with a list of type strings
(`child.type in child_type`). -/
def find_first_by_type_in (nodes : List Node) (ts : List String) : Option Node :=
  nodes.find? (fun c => ts.contains c.type)

/-- The quote characters stripped by `parse_string` (`text.strip('"\x27')`). -/
def quoteChars : List Char := ['"', '\'']

/-- `CEDARScriptASTParser.parse_string`: unwrap a `string` wrapper to its
first named child, then decode according to the token's type. -/
def parse_string (node : Node) : Except String String :=
  let inner : Except String Node :=
    if pyCasefold node.type == "string" then
      match node.namedChildren with
      | [] => Except.error "list index out of range"
      | n :: _ => Except.ok n
    else Except.ok node
  match inner with
  | Except.error e => Except.error e
  | Except.ok node =>
    let text := node.text
    let t := pyCasefold node.type
    if t == "raw_string" then
      Except.ok (pyStrip text quoteChars)
    else if t == "single_quoted_string" then
      Except.ok (pyStrip (pyReplace (pyReplace text "\\'" "'") "\\\"" "\"") quoteChars)
    else if t == "multi_line_string" then
      Except.ok (pyDropSuf (pyDropSuf (pyDropPre (pyDropPre text "'''") "\"\"\"") "'''") "\"\"\"")
    else
      Except.ok text

/-- `parse_string` applied to the result of a `find_first_by_type` lookup:
Python dereferences `None.type` when the lookup failed (`AttributeError`). -/
def parse_string_opt : Option Node → Except String String
  | none => Except.error "'NoneType' object has no attribute 'type'"
  | some n => parse_string n

/-- `CEDARScriptASTParser.parse_multiline_string`:
`node.text.decode('utf8').strip("'''").strip('"""')`. -/
def parse_multiline_string (node : Node) : String :=
  pyStrip (pyStrip node.text ['\'']) ['"']

/-- The per-line loop of `parse_relative_indent_block`.  In the external
engine (py-tree-sitter) `node.text` is BYTES; this module decodes it with
`.decode('utf8')` everywhere else, but here the source executes
`int(indent_prefix.text.strip('@:'))` directly, and `bytes.strip` with a
`str` argument raises `TypeError: a bytes-like object is required, not
'str'`.  So every line of type `relative_indent_line` holding BOTH a
`relative_indent_prefix` child and a `match_any_char` child raises before
anything is appended (the `lines.append` of the source is dead code, and
even without the `TypeError` the f-string would interpolate the bytes repr
`b'...'` of `content.text`); lines missing either part are skipped and let
the loop continue. -/
def ribLines : List Node → Except String (List String)
  | [] => Except.ok []
  | line_node :: rest =>
    if line_node.type == "relative_indent_line" then
      match find_first_by_type line_node.children "relative_indent_prefix",
            find_first_by_type line_node.children "match_any_char" with
      | some _, some _ =>
        Except.error "a bytes-like object is required, not 'str'"
      | _, _ => ribLines rest
    else ribLines rest

/-- `CEDARScriptASTParser.parse_relative_indent_block`: join the collected
lines with newlines.  Given the `TypeError` above, the function returns
normally only when no line carries both an indent-prefix and content, and
then the joined result is the empty string. -/
def parse_relative_indent_block (node : Node) : Except String String :=
  match ribLines node.children with
  | Except.error e => Except.error e
  | Except.ok lines => Except.ok (pyJoin "\n" lines)

/-- `MarkerType = StrEnum('MarkerType', 'LINE VARIABLE FUNCTION CLASS')`.
(`variable` and `class` are Lean keywords, hence the trailing underscores.) -/
inductive MarkerType where
  | line | variable_ | function | class_
deriving DecidableEq, Repr

/-- The `StrEnum` member's `.value` (the lowercased member name). -/
def MarkerType.value : MarkerType → String
  | .line => "line"
  | .variable_ => "variable"
  | .function => "function"
  | .class_ => "class"

/-- `MarkerType(text)`: construct from the member value, or `ValueError`. -/
def MarkerType.fromValue : String → Except String MarkerType
  | "line" => Except.ok .line
  | "variable" => Except.ok .variable_
  | "function" => Except.ok .function
  | "class" => Except.ok .class_
  | s => Except.error ("'" ++ s ++ "' is not a valid MarkerType")

/-- `RelativePositionType = StrEnum('RelativePositionType', 'AT BEFORE AFTER INSIDE')`.
(`at` is a Lean keyword, hence the trailing underscore.) -/
inductive RelativePositionType where
  | at_ | before | after | inside
deriving DecidableEq, Repr

def RelativePositionType.value : RelativePositionType → String
  | .at_ => "at"
  | .before => "before"
  | .after => "after"
  | .inside => "inside"

/-- `RelativePositionType(text)`: construct from the member value, or `ValueError`. -/
def RelativePositionType.fromValue : String → Except String RelativePositionType
  | "at" => Except.ok .at_
  | "before" => Except.ok .before
  | "after" => Except.ok .after
  | "inside" => Except.ok .inside
  | s => Except.error ("'" ++ s ++ "' is not a valid RelativePositionType")

/-- `class BodyOrWhole(StrEnum)`. -/
inductive BodyOrWhole where
  | body | whole
deriving DecidableEq, Repr

def BodyOrWhole.value : BodyOrWhole → String
  | .body => "body"
  | .whole => "whole"

/-- `@dataclass Marker`: `type`, `value`, `offset: int | None = None`. -/
structure Marker where
  type : MarkerType
  value : String
  offset : Option Int
deriving DecidableEq, Repr

/-- `class RelativeMarker(Marker)`: a `Marker` plus a `qualifier`. -/
structure RelativeMarker where
  qualifier : RelativePositionType
  type : MarkerType
  value : String
  offset : Option Int
deriving DecidableEq, Repr

/-- `Marker.__str__`. -/
def Marker.render (m : Marker) : String :=
  let result := m.type.value ++ " '" ++ m.value ++ "'"
  match m.offset with
  | some o => result ++ " at offset " ++ toString o
  | none => result

/-- `RelativeMarker.__str__`: `super().__str__()` plus the qualifier clause,
omitted when the qualifier is `AT`. -/
def RelativeMarker.render (rm : RelativeMarker) : String :=
  let result := Marker.render ⟨rm.type, rm.value, rm.offset⟩
  match rm.qualifier with
  | .at_ => result
  | q => result ++ " (" ++ q.value ++ ")"

/-- `Region`: the values `parse_region` can produce.  The Python module has
separate `Marker`, `RelativeMarker`, `Segment` and `BodyOrWhole` classes and a
`Region` type alias over them; `Segment`'s `end` field is `stop` here (`end`
is a Lean keyword).  `Segment` holds whatever `parse_region` returned for its
two endpoint sub-clauses. -/
inductive Region where
  | bow (b : BodyOrWhole)
  | marker (m : Marker)
  | relMarker (rm : RelativeMarker)
  | segment (start stop : Region)
deriving DecidableEq, Repr

/-- `@dataclass WhereClause`. -/
structure WhereClause where
  field : String
  operator : String
  value : String
deriving DecidableEq, Repr

/-- `@dataclass SingleFileClause`. -/
structure SingleFileClause where
  file_path : String
deriving DecidableEq, Repr

/-- `@dataclass IdentifierFromFile(SingleFileClause)`. -/
structure IdentifierFromFile where
  file_path : String
  where_clause : WhereClause
  identifier_type : String
  offset : Option Int
deriving DecidableEq, Repr

/-- `FileOrIdentifierWithin: TypeAlias = SingleFileClause | IdentifierFromFile`. -/
inductive FileOrIdentifierWithin where
  | single (c : SingleFileClause)
  | identFromFile (c : IdentifierFromFile)
deriving DecidableEq, Repr

/-- `target.file_path` works on both alternatives. -/
def FileOrIdentifierWithin.file_path : FileOrIdentifierWithin → String
  | .single c => c.file_path
  | .identFromFile c => c.file_path

/-- `@dataclass ReplaceClause(RegionClause)`. -/
structure ReplaceClause where
  region : Region
deriving DecidableEq, Repr

/-- `@dataclass DeleteClause(RegionClause)`. -/
structure DeleteClause where
  region : Region
deriving DecidableEq, Repr

/-- `@dataclass InsertClause`.  The Python annotation says `RelativeMarker`,
but the field holds whatever `parse_region` returned (the code never checks;
see the `TODO check relative_marker type` comment in the source). -/
structure InsertClause where
  insert_position : Region
deriving DecidableEq, Repr

/-- `@dataclass MoveClause(DeleteClause, InsertClause)` with
`to_other_file: SingleFileClause | None = None` and
`relative_indentation: int | None = None`. -/
structure MoveClause where
  region : Region
  insert_position : Region
  to_other_file : Option SingleFileClause
  relative_indentation : Option Int
deriving DecidableEq, Repr

/-- `EditingAction: TypeAlias = ReplaceClause | DeleteClause | InsertClause | MoveClause`. -/
inductive EditingAction where
  | replace (c : ReplaceClause)
  | delete (c : DeleteClause)
  | insert (c : InsertClause)
  | move (c : MoveClause)
deriving DecidableEq, Repr

/-- The command dataclasses (`CreateCommand`, `RmFileCommand`, `MvFileCommand`,
`UpdateCommand`), each carrying the base `Command.type` string field. -/
inductive Command where
  | create (type : String) (file_path : String) (content : String)
  | rmFile (type : String) (file_path : String)
  | mvFile (type : String) (file_path : String) (target_path : String)
  | update (type : String) (target : FileOrIdentifierWithin)
           (action : EditingAction) (content : Option String)
deriving DecidableEq, Repr

/-- An element of a `files_to_change` tuple.  The Python methods are annotated
`tuple[str, ...]`, but `UpdateCommand.files_to_change` appends the raw
`SingleFileClause` object (`result += (target_file,)`), not its `file_path`
string, so the tuple is heterogeneous and needs a sum type here. -/
inductive PathOrClause where
  | path (p : String)
  | clause (c : SingleFileClause)
deriving DecidableEq, Repr

/-- The `files_to_change` properties of the command dataclasses. -/
def Command.files_to_change : Command → List PathOrClause
  | .create _ file_path _ => [.path file_path]
  | .rmFile _ file_path => [.path file_path]
  | .mvFile _ file_path target_path => [.path file_path, .path target_path]
  | .update _ target action _ =>
    [.path target.file_path] ++
      match action with
      | .move mc =>
        match mc.to_other_file with
        | some target_file => [.clause target_file]
        | none => []
      | _ => []

/-- `class ParseError(NamedTuple)`. -/
structure ParseError where
  command_ordinal : Nat
  message : String
  line : Nat
  column : Nat
  suggestion : String
deriving DecidableEq, Repr

/-- Python `node.named_children[0]`: `IndexError` when there is none. -/
def named0 (node : Node) : Except String Node :=
  match node.namedChildren with
  | [] => Except.error "list index out of range"
  | n :: _ => Except.ok n

/-- Python `node.child(0)` followed by an attribute access: fails when the
node has no child. -/
def child0 (node : Node) : Except String Node :=
  match node.children with
  | [] => Except.error "'NoneType' object has no attribute 'type'"
  | n :: _ => Except.ok n

/-- `CEDARScriptASTParser.parse_offset_clause`: `None` maps to `None`,
otherwise `int(<number child>.text)`. -/
def parse_offset_clause : Option Node → Except String (Option Int)
  | none => Except.ok none
  | some node =>
    match find_first_by_type node.children "number" with
    | none => Except.error "'NoneType' object has no attribute 'text'"
    | some num =>
      match pyInt num.text with
      | Except.error e => Except.error e
      | Except.ok v => Except.ok (some v)

/-- `CEDARScriptASTParser.parse_relative_indentation` (same body as
`parse_offset_clause`). -/
def parse_relative_indentation : Option Node → Except String (Option Int)
  | none => Except.ok none
  | some node =>
    match find_first_by_type node.children "number" with
    | none => Except.error "'NoneType' object has no attribute 'text'"
    | some num =>
      match pyInt num.text with
      | Except.error e => Except.error e
      | Except.ok v => Except.ok (some v)

/-- `CEDARScriptASTParser.parse_marker`: unwrap a `marker` wrapper, read the
marker kind from the first child's type, the value from a nested string node
and the optional offset from a nested offset clause. -/
def parse_marker (node : Node) : Except String Region := do
  let node ← if pyCasefold node.type == "marker" then named0 node else pure node
  let first ← child0 node
  let marker_type := first.type
  let value ← parse_string_opt (find_first_by_type node.namedChildren "string")
  let offset ← parse_offset_clause (find_first_by_type node.namedChildren "offset_clause")
  let mt ← MarkerType.fromValue (pyCasefold marker_type)
  return Region.marker ⟨mt, value, offset⟩

/-- The unwrap phase of `CEDARScriptASTParser.parse_region`: descend through
the wrapper shapes, recording a qualifier when a relative-position wrapper is
traversed. -/
def unwrapRegionNode (node : Node) : Except String (Option RelativePositionType × Node) :=
  let t := pyCasefold node.type
  if t == "marker_or_segment" then
    match named0 node with
    | Except.error e => Except.error e
    | Except.ok n => Except.ok (none, n)
  else if t == "region_field" then
    match node.children with
    | [] => Except.error "list index out of range"
    | n :: _ =>
      if pyCasefold n.type == "marker_or_segment" then
        match named0 n with
        | Except.error e => Except.error e
        | Except.ok m => Except.ok (none, m)
      else Except.ok (none, n)
  else if t == "relpos_bai" then
    match named0 node with
    | Except.error e => Except.error e
    | Except.ok n =>
      match child0 n with
      | Except.error e => Except.error e
      | Except.ok c0 =>
        match RelativePositionType.fromValue (pyCasefold c0.type) with
        | Except.error e => Except.error e
        | Except.ok q =>
          match named0 n with
          | Except.error e => Except.error e
          | Except.ok m => Except.ok (some q, m)
  else if t == "relpos_beforeafter" then
    match child0 node with
    | Except.error e => Except.error e
    | Except.ok c0 =>
      match RelativePositionType.fromValue (pyCasefold c0.type) with
      | Except.error e => Except.error e
      | Except.ok q =>
        match named0 node with
        | Except.error e => Except.error e
        | Except.ok m => Except.ok (some q, m)
  else if t == "relpos_at" then
    match named0 node with
    | Except.error e => Except.error e
    | Except.ok n => Except.ok (none, n)
  else Except.ok (none, node)

/-- Re-wrap `result` as a `RelativeMarker` when a qualifier was recorded
(`RelativeMarker(qualifier=..., type=result.type, value=result.value,
offset=result.offset)`); a `Segment` or `BodyOrWhole` result has none of
those attributes, so Python raises `AttributeError` there. -/
def applyQualifier (qualifier? : Option RelativePositionType) (result : Region) :
    Except String Region :=
  match qualifier? with
  | none => Except.ok result
  | some q =>
    match result with
    | .marker m => Except.ok (.relMarker ⟨q, m.type, m.value, m.offset⟩)
    | .relMarker rm => Except.ok (.relMarker ⟨q, rm.type, rm.value, rm.offset⟩)
    | _ => Except.error "object has no attribute 'type'"

/-- The endpoint lookup of `parse_segment`:
`find_first_by_type(node.named_children, tname).children[1]`. -/
def segEndpoint (node : Node) (tname : String) : Except String Node :=
  match find_first_by_type node.namedChildren tname with
  | none => Except.error "'NoneType' object has no attribute 'children'"
  | some n =>
    match n.children.get? 1 with
    | none => Except.error "list index out of range"
    | some c => Except.ok c

/-- `CEDARScriptASTParser.parse_region`.  The `fuel` argument models Python's
recursion limit (`RecursionError`).  The source dispatches the `segment` leaf
to `self.parse_segment`, whose body (two endpoint lookups, each parsed
recursively as a region) is inlined here so that the recursion is structural
in `fuel`; `parse_segment` below is that same body as a standalone
function. -/
def parse_region : Nat → Node → Except String Region
  | 0, _ => Except.error "maximum recursion depth exceeded"
  | fuel + 1, node0 =>
    match unwrapRegionNode node0 with
    | Except.error e => Except.error e
    | Except.ok (qualifier?, node) =>
      let t := pyCasefold node.type
      let result : Except String Region :=
        if t == "marker" || t == "linemarker" then parse_marker node
        else if t == "segment" then
          match segEndpoint node "relpos_segment_start" with
          | Except.error e => Except.error e
          | Except.ok rs =>
            match segEndpoint node "relpos_segment_end" with
            | Except.error e => Except.error e
            | Except.ok re =>
              match parse_region fuel rs with
              | Except.error e => Except.error e
              | Except.ok s =>
                match parse_region fuel re with
                | Except.error e => Except.error e
                | Except.ok e2 => Except.ok (Region.segment s e2)
        else if t == "body" then Except.ok (Region.bow .body)
        else if t == "whole" then Except.ok (Region.bow .whole)
        else Except.error ("[parse_region] Unexpected node type: " ++ t)
      match result with
      | Except.error e => Except.error e
      | Except.ok r => applyQualifier qualifier? r

/-- `CEDARScriptASTParser.parse_segment` as a standalone function (its body
is inlined in `parse_region`'s `segment` leaf case above). -/
def parse_segment (fuel : Nat) (node : Node) : Except String Region :=
  match segEndpoint node "relpos_segment_start" with
  | Except.error e => Except.error e
  | Except.ok rs =>
    match segEndpoint node "relpos_segment_end" with
    | Except.error e => Except.error e
    | Except.ok re =>
      match parse_region fuel rs with
      | Except.error e => Except.error e
      | Except.ok s =>
        match parse_region fuel re with
        | Except.error e => Except.error e
        | Except.ok e2 => Except.ok (Region.segment s e2)

/-- `parse_region` applied to a `find_first_by_type` result: Python
dereferences `None.type` when the lookup failed. -/
def parse_region_opt (fuel : Nat) : Option Node → Except String Region
  | none => Except.error "'NoneType' object has no attribute 'type'"
  | some n => parse_region fuel n

/-- `CEDARScriptASTParser.parse_insert_clause` (the argument may be the
`None` result of a failed lookup in `parse_move_clause`). -/
def parse_insert_clause (fuel : Nat) : Option Node → Except String InsertClause
  | none => Except.error "'NoneType' object has no attribute 'children'"
  | some node =>
    match parse_region_opt fuel (find_first_by_type node.children "relpos_bai") with
    | Except.error e => Except.error e
    | Except.ok relative_marker => Except.ok ⟨relative_marker⟩

/-- `CEDARScriptASTParser.parse_delete_clause`. -/
def parse_delete_clause (fuel : Nat) (node : Node) : Except String DeleteClause :=
  match parse_region_opt fuel
      (find_first_by_type_in node.namedChildren ["marker_or_segment", "region_field"]) with
  | Except.error e => Except.error e
  | Except.ok region => Except.ok ⟨region⟩

/-- `CEDARScriptASTParser.parse_replace_clause`. -/
def parse_replace_clause (fuel : Nat) (node : Node) : Except String ReplaceClause :=
  match parse_region_opt fuel
      (find_first_by_type_in node.namedChildren ["marker_or_segment", "region_field"]) with
  | Except.error e => Except.error e
  | Except.ok region => Except.ok ⟨region⟩

/-- `CEDARScriptASTParser.parse_move_clause`: source region, destination's
insert clause and optional relative indentation; `to_other_file` is never
populated (the source has a `TODO to_other_file` comment). -/
def parse_move_clause (fuel : Nat) (node : Node) : Except String MoveClause :=
  match parse_region_opt fuel
      (find_first_by_type_in node.namedChildren ["marker_or_segment", "region_field"]) with
  | Except.error e => Except.error e
  | Except.ok source =>
    match find_first_by_type node.namedChildren "update_move_clause_destination" with
    | none => Except.error "'NoneType' object has no attribute 'named_children'"
    | some destination =>
      match parse_insert_clause fuel
          (find_first_by_type destination.namedChildren "insert_clause") with
      | Except.error e => Except.error e
      | Except.ok insert_clause =>
        match parse_relative_indentation
            (find_first_by_type destination.namedChildren "relative_indentation") with
        | Except.error e => Except.error e
        | Except.ok rel_indent =>
          Except.ok { region := source, insert_position := insert_clause.insert_position,
                      to_other_file := none, relative_indentation := rel_indent }

/-- `CEDARScriptASTParser.parse_update_action`. -/
def parse_update_action (fuel : Nat) (node : Node) : Except String EditingAction :=
  match find_first_by_type_in node.namedChildren
      ["update_delete_region_clause", "update_delete_mos_clause",
       "update_move_region_clause", "update_move_mos_clause",
       "insert_clause", "replace_mos_clause", "replace_region_clause"] with
  | none => Except.error "No valid action found in update command"
  | some action_node =>
    let t := action_node.type
    if t == "update_delete_mos_clause" || t == "update_delete_region_clause" then
      (parse_delete_clause fuel action_node).map .delete
    else if t == "update_move_mos_clause" || t == "update_move_region_clause" then
      (parse_move_clause fuel action_node).map .move
    else if t == "insert_clause" then
      (parse_insert_clause fuel (some action_node)).map .insert
    else if t == "replace_mos_clause" || t == "replace_region_clause" then
      (parse_replace_clause fuel action_node).map .replace
    else Except.error ("[parse_update_action] Invalid: " ++ t)

/-- `CEDARScriptASTParser.parse_singlefile_clause`. -/
def parse_singlefile_clause : Option Node → Except String SingleFileClause
  | none => Except.error "Expected singlefile_clause node"
  | some node =>
    if node.type != "singlefile_clause" then
      Except.error "Expected singlefile_clause node"
    else
      match find_first_by_type node.children "string" with
      | none => Except.error "No file_path found in singlefile_clause"
      | some path_node =>
        match parse_string path_node with
        | Except.error e => Except.error e
        | Except.ok s => Except.ok ⟨s⟩

/-- `CEDARScriptASTParser.parse_where_clause`. -/
def parse_where_clause (node : Node) : Except String WhereClause := do
  match find_first_by_type node.children "condition" with
  | none => Except.error "No condition found in where clause"
  | some condition => do
    let field ← parse_string_opt (find_first_by_type condition.children "conditions_left")
    let operator ← parse_string_opt (find_first_by_type condition.children "operator")
    let value ← parse_string_opt (find_first_by_type condition.children "string")
    return ⟨field, operator, value⟩

/-- `CEDARScriptASTParser.parse_identifier_from_file`. -/
def parse_identifier_from_file (node : Node) : Except String IdentifierFromFile := do
  let first ← (match node.children with
    | [] => Except.error "list index out of range"
    | n :: _ => Except.ok n)
  let identifier_type := first.type
  let file_clause := find_first_by_type node.namedChildren "singlefile_clause"
  let where_clause := find_first_by_type node.namedChildren "where_clause"
  let offset_clause := find_first_by_type node.namedChildren "offset_clause"
  match file_clause, where_clause with
  | some fc, some wc => do
    let sfc ← parse_singlefile_clause (some fc)
    let whereC ← parse_where_clause wc
    let offset ← (match offset_clause with
      | some oc => parse_offset_clause (some oc)
      | none => Except.ok none)
    return { identifier_type := identifier_type, file_path := sfc.file_path,
             where_clause := whereC, offset := offset }
  | _, _ => Except.error "Invalid identifier_from_file clause"

/-- `CEDARScriptASTParser.parse_update_target`. -/
def parse_update_target (node : Node) : Except String FileOrIdentifierWithin :=
  match find_first_by_type_in node.namedChildren
      ["singlefile_clause", "identifier_from_file"] with
  | none => Except.error "No valid target found in update command"
  | some target_node =>
    let t := pyCasefold target_node.type
    if t == "singlefile_clause" then
      (parse_singlefile_clause (some target_node)).map .single
    else if t == "identifier_from_file" then
      (parse_identifier_from_file target_node).map .identFromFile
    else Except.error ("[parse_update_target] Invalid target: " ++ t)

/-- `CEDARScriptASTParser.parse_content_clause`.  (When the found node's
type is none of the three alternatives Python would fall off the end and
return `None`; `find_first_by_type_in` makes that branch unreachable, and it
is modelled as an error.) -/
def parse_content_clause : Option Node → Except String String
  | none => Except.error "Expected content_clause node"
  | some node =>
    if node.type != "content_clause" then
      Except.error "Expected content_clause node"
    else
      match find_first_by_type_in node.children
          ["string", "relative_indent_block", "multiline_string"] with
      | none => Except.error "No content found in content_clause"
      | some content_node =>
        if content_node.type == "string" then parse_string content_node
        else if content_node.type == "relative_indent_block" then
          parse_relative_indent_block content_node
        else if content_node.type == "multiline_string" then
          Except.ok (parse_multiline_string content_node)
        else Except.error "unreachable: content_clause"

/-- `CEDARScriptASTParser.parse_to_value_clause`. -/
def parse_to_value_clause : Option Node → Except String String
  | none => Except.error "Expected to_value_clause node"
  | some node =>
    if node.type != "to_value_clause" then
      Except.error "Expected to_value_clause node"
    else
      match find_first_by_type node.children "string" with
      | none => Except.error "No value found in to_value_clause"
      | some value_node => parse_string value_node

/-- `CEDARScriptASTParser.parse_update_content`. -/
def parse_update_content (node : Node) : Except String (Option String) :=
  match find_first_by_type node.children "content_clause" with
  | some content_clause => (parse_content_clause (some content_clause)).map some
  | none => Except.ok none

/-- `CEDARScriptASTParser.parse_create_command`. -/
def parse_create_command (node : Node) : Except String Command := do
  let sfc ← parse_singlefile_clause (find_first_by_type node.children "singlefile_clause")
  let content ← parse_content_clause (find_first_by_type node.children "content_clause")
  return .create "create" sfc.file_path content

/-- `CEDARScriptASTParser.parse_rm_file_command`. -/
def parse_rm_file_command (node : Node) : Except String Command := do
  let sfc ← parse_singlefile_clause (find_first_by_type node.children "singlefile_clause")
  return .rmFile "rm_file" sfc.file_path

/-- `CEDARScriptASTParser.parse_mv_file_command`. -/
def parse_mv_file_command (node : Node) : Except String Command := do
  let sfc ← parse_singlefile_clause (find_first_by_type node.children "singlefile_clause")
  let target_path ← parse_to_value_clause (find_first_by_type node.children "to_value_clause")
  return .mvFile "mv_file" sfc.file_path target_path

/-- `CEDARScriptASTParser.parse_update_command`. -/
def parse_update_command (fuel : Nat) (node : Node) : Except String Command := do
  let target ← parse_update_target node
  let action ← parse_update_action fuel node
  let content ← parse_update_content node
  return .update "update" target action content

/-- `CEDARScriptASTParser.parse_command`: dispatch on the exact node type;
anything else raises `ValueError(f"Unexpected command type: {node.type}")`. -/
def parse_command (fuel : Nat) (node : Node) : Except String Command :=
  if node.type == "create_command" then parse_create_command node
  else if node.type == "rm_file_command" then parse_rm_file_command node
  else if node.type == "mv_file_command" then parse_mv_file_command node
  else if node.type == "update_command" then parse_update_command fuel node
  else Except.error ("Unexpected command type: " ++ node.type)

/-- `_generate_suggestion(error_node, code_text)`: the suggestion is keyed
off the parent node's type; a node without a parent gets the generic hint.
Only `error_node.parent.type` is consulted, so the parent's type (or `none`
for the root) is what the embedding passes. -/
def generate_suggestion (parentType? : Option String) : String :=
  match parentType? with
  | none => "Please check the syntax near the error."
  | some parent_type =>
    if parent_type == "content_clause" then
      "Ensure the content block is properly enclosed with matching quotes (''' or \"\")."
    else if parent_type == "update_command" then
      "An action clause ('REPLACE', 'INSERT', 'DELETE') is expected in the 'UPDATE' command."
    else if parent_type == "create_command" then
      "The 'CREATE' command may be missing 'WITH CONTENT' or has a syntax issue."
    else
      "Please check the syntax near the error (parent node: " ++ parent_type ++ ")"

mutual

/-- `CEDARScriptASTParser._collect_parse_errors`: under a node whose
`has_error` flag is set, report every node of the engine's error-marker type
`ERROR` (1-based line/column from its start point) and keep walking the
children; a node whose flag is clear is not entered at all. -/
def collect_parse_errors : Node → String → Nat → Option String → List ParseError
  | .mk type _ _ hasError startRow startCol startByte endByte children,
      code_text, command_ordinal, parentType? =>
    if hasError then
      (if type == "ERROR" then
        let line := startRow + 1
        let column := startCol + 1
        let error_text := pyStrip (pySlice code_text startByte endByte) wsChars
        let message := "Syntax error near '" ++ error_text ++ "' at line " ++
          toString line ++ ", column " ++ toString column ++ "."
        [{ command_ordinal := command_ordinal, message := message, line := line,
           column := column, suggestion := generate_suggestion parentType? }]
      else []) ++ collect_errors_children children code_text command_ordinal type
    else []

/-- The `for child in node.children` recursion of `_collect_parse_errors`. -/
def collect_errors_children : List Node → String → Nat → String → List ParseError
  | [], _, _, _ => []
  | c :: rest, code_text, command_ordinal, parentType =>
    collect_parse_errors c code_text command_ordinal (some parentType) ++
      collect_errors_children rest code_text command_ordinal parentType

end

/-- The `for child in root_node.children` loop of `parse_script`: comment
nodes are surfaced (the `print` calls `parse_string`, whose exception would
escape to the facade), nodes whose casefolded type does not end in
`_command` are skipped, and each command node is parsed and advances the
1-based ordinal.  An error carries the ordinal current when it was raised. -/
def buildCommands (fuel : Nat) : List Node → Nat → Except (String × Nat) (List Command × Nat)
  | [], command_ordinal => Except.ok ([], command_ordinal)
  | child :: rest, command_ordinal =>
    let node_type := pyCasefold child.type
    let commentEffect : Except String Unit :=
      if node_type == "comment" then (parse_string child).map (fun _ => ()) else Except.ok ()
    match commentEffect with
    | Except.error e => Except.error (e, command_ordinal)
    | Except.ok () =>
      if pyEndsWith node_type "_command" then
        match parse_command fuel child with
        | Except.error e => Except.error (e, command_ordinal)
        | Except.ok cmd =>
          match buildCommands fuel rest (command_ordinal + 1) with
          | Except.error e => Except.error e
          | Except.ok (cmds, o) => Except.ok (cmd :: cmds, o)
      else buildCommands fuel rest command_ordinal

/-- `CEDARScriptASTParser.parse_script` on the tree the external engine
produced for `code_text`: collect structural errors first (short-circuiting
command construction), otherwise build one command per top-level command
node; any exception is converted into a single synthetic `ParseError` at
`line = 0, column = 0` with the generic suggestion, the exception's
description as message, and the last ordinal reached. -/
def parse_script (fuel : Nat) (root_node : Node) (code_text : String) :
    List Command × List ParseError :=
  let command_ordinal := 1
  let errors := collect_parse_errors root_node code_text command_ordinal none
  if errors.isEmpty then
    match buildCommands fuel root_node.children command_ordinal with
    | Except.ok (commands, _) => (commands, [])
    | Except.error (msg, ord) =>
      ([], [{ command_ordinal := ord, message := msg, line := 0, column := 0,
              suggestion := "Revise your CEDARScript syntax." }])
  else ([], errors)

mutual

/-- Number of nodes of the engine's error-marker type `ERROR` in a tree. -/
def countERROR : Node → Nat
  | .mk type _ _ _ _ _ _ _ children =>
    (if type == "ERROR" then 1 else 0) + countERRORList children

def countERRORList : List Node → Nat
  | [] => 0
  | c :: rest => countERROR c + countERRORList rest

end

mutual

/-- The tree-sitter invariant on `has_error` flags: a node's flag is set
exactly when the node itself is an `ERROR` node or some child's flag is set. -/
def errFlagsWF : Node → Bool
  | .mk type _ _ hasError _ _ _ _ children =>
    (hasError == (type == "ERROR" || children.any (·.hasError))) &&
      errFlagsWFList children

def errFlagsWFList : List Node → Bool
  | [] => true
  | c :: rest => errFlagsWF c && errFlagsWFList rest

end

mutual

theorem countERROR_eq_zero (n : Node) (hwf : errFlagsWF n = true)
    (hflag : n.hasError = false) : countERROR n = 0 := by
  cases n with
  | mk t tx nm he r c sb eb cs =>
    simp only [Node.hasError] at hflag
    subst hflag
    rw [errFlagsWF] at hwf
    simp only [Bool.and_eq_true, beq_iff_eq] at hwf
    obtain ⟨hbe, hlist⟩ := hwf
    have hty : (t == "ERROR") = false := by
      cases h : (t == "ERROR") with
      | false => rfl
      | true => rw [h] at hbe; simp at hbe
    have hany : (cs.any (·.hasError)) = false := by
      cases h : cs.any (·.hasError) with
      | false => rfl
      | true => rw [h, hty] at hbe; simp at hbe
    rw [countERROR, hty]
    simpa using countERRORList_eq_zero cs hlist hany

theorem countERRORList_eq_zero (l : List Node) (hwf : errFlagsWFList l = true)
    (hany : (l.any (·.hasError)) = false) : countERRORList l = 0 := by
  match l with
  | [] => rw [countERRORList]
  | c :: rest =>
    rw [errFlagsWFList] at hwf
    simp only [Bool.and_eq_true] at hwf
    simp only [List.any_cons, Bool.or_eq_false_iff] at hany
    rw [countERRORList, countERROR_eq_zero c hwf.1 hany.1,
      countERRORList_eq_zero rest hwf.2 hany.2]

end

mutual

/-- Under the tree-sitter `has_error` invariant the collector reports exactly
one diagnostic per `ERROR` node of the tree. -/
theorem collect_len (n : Node) (ct : String) (ord : Nat) (pt : Option String)
    (hwf : errFlagsWF n = true) :
    (collect_parse_errors n ct ord pt).length = countERROR n := by
  cases n with
  | mk t tx nm he r c sb eb cs =>
    have hwf' := hwf
    rw [errFlagsWF] at hwf'
    simp only [Bool.and_eq_true, beq_iff_eq] at hwf'
    obtain ⟨hbe, hlist⟩ := hwf'
    rw [collect_parse_errors]
    cases he with
    | false =>
      rw [countERROR_eq_zero _ hwf (by simp [Node.hasError])]
      simp
    | true =>
      rw [countERROR]
      simp only [if_true]
      rw [List.length_append, collect_len_list cs ct ord t hlist]
      cases h : (t == "ERROR") <;> simp [h]

theorem collect_len_list (l : List Node) (ct : String) (ord : Nat) (pt : String)
    (hwf : errFlagsWFList l = true) :
    (collect_errors_children l ct ord pt).length = countERRORList l := by
  match l with
  | [] => simp [collect_errors_children, countERRORList]
  | c :: rest =>
    rw [errFlagsWFList] at hwf
    simp only [Bool.and_eq_true] at hwf
    rw [collect_errors_children, countERRORList, List.length_append,
      collect_len c ct ord (some pt) hwf.1, collect_len_list rest ct ord pt hwf.2]

end

mutual

/-- Every diagnostic the collector produces carries the ordinal it was
invoked with, and a 1-based line and column. -/
theorem collect_mem (n : Node) (ct : String) (ord : Nat) (pt : Option String) :
    ∀ e ∈ collect_parse_errors n ct ord pt,
      e.command_ordinal = ord ∧ 1 ≤ e.line ∧ 1 ≤ e.column := by
  intro e he
  cases n with
  | mk t tx nm hasE r c sb eb cs =>
    rw [collect_parse_errors] at he
    cases hasE with
    | false => simp at he
    | true =>
      simp only [if_true, List.mem_append] at he
      cases he with
      | inl h =>
        cases hty : (t == "ERROR") with
        | false => rw [hty] at h; simp at h
        | true =>
          rw [hty] at h
          simp only [if_true, List.mem_singleton] at h
          subst h
          exact ⟨rfl, Nat.le_add_left 1 _, Nat.le_add_left 1 _⟩
      | inr h => exact collect_mem_list cs ct ord t e h

theorem collect_mem_list (l : List Node) (ct : String) (ord : Nat) (pt : String) :
    ∀ e ∈ collect_errors_children l ct ord pt,
      e.command_ordinal = ord ∧ 1 ≤ e.line ∧ 1 ≤ e.column := by
  intro e he
  match l with
  | [] => rw [collect_errors_children] at he; simp at he
  | c :: rest =>
    rw [collect_errors_children] at he
    simp only [List.mem_append] at he
    cases he with
    | inl h => exact collect_mem c ct ord (some pt) e h
    | inr h => exact collect_mem_list rest ct ord pt e h

end

/-- Number of top-level command nodes: children whose casefolded type ends
in `_command` (exactly the nodes the `parse_script` loop turns into a
`Command` and counts in the ordinal). -/
def cmdCount (l : List Node) : Nat :=
  l.countP (fun c => pyEndsWith (pyCasefold c.type) "_command")

/-- `parse_string` cannot fail on a node that is not a `string` wrapper (the
only fallible step is the `named_children[0]` access of the wrapper case). -/
theorem parse_string_of_not_string (n : Node) (h : pyCasefold n.type ≠ "string") :
    ∃ s, parse_string n = Except.ok s := by
  have hb : (pyCasefold n.type == "string") = false := by
    simpa using h
  rw [parse_string]
  simp only [hb, Bool.false_eq_true, if_false]
  split
  · exact ⟨_, rfl⟩
  · split
    · exact ⟨_, rfl⟩
    · split
      · exact ⟨_, rfl⟩
      · exact ⟨_, rfl⟩

/-- A comment node never counts as a command node. -/
theorem comment_not_command (c : Node) (h : pyCasefold c.type = "comment") :
    pyEndsWith (pyCasefold c.type) "_command" = false := by
  rw [h]
  decide

/-- Comment nodes neither advance the ordinal nor produce a `Command`: the
loop body for a comment child is the loop on the remaining children with the
same ordinal and accumulator. -/
theorem buildCommands_comment_skip (fuel : Nat) (c : Node) (rest : List Node) (ord : Nat)
    (h : pyCasefold c.type = "comment") :
    buildCommands fuel (c :: rest) ord = buildCommands fuel rest ord := by
  obtain ⟨s, hs⟩ := parse_string_of_not_string c (by rw [h]; decide)
  have hb : (pyCasefold c.type == "comment") = true := by simpa using h
  rw [buildCommands]
  simp only [hb, if_true, hs, Except.map, comment_not_command c h, Bool.false_eq_true, if_false]

/-- A command node that parses advances the ordinal by exactly one and
contributes exactly one `Command`. -/
theorem buildCommands_cmd_step (fuel : Nat) (c : Node) (rest : List Node) (ord : Nat)
    (cmd : Command) (hc : pyEndsWith (pyCasefold c.type) "_command" = true)
    (hok : parse_command fuel c = Except.ok cmd) :
    buildCommands fuel (c :: rest) ord =
      (buildCommands fuel rest (ord + 1)).map (fun p => (cmd :: p.1, p.2)) := by
  have hnc : (pyCasefold c.type == "comment") = false := by
    cases hcc : (pyCasefold c.type == "comment") with
    | false => rfl
    | true =>
      have : pyCasefold c.type = "comment" := by simpa using hcc
      rw [comment_not_command c this] at hc
      cases hc
  rw [buildCommands]
  simp only [hnc, Bool.false_eq_true, if_false, hc, if_true, hok]
  cases buildCommands fuel rest (ord + 1) with
  | error e => rfl
  | ok p => rfl

/-- When every command child parses, the loop returns one `Command` per
command child and the final ordinal is the start ordinal plus the number of
command children. -/
theorem buildCommands_ok (fuel : Nat) (l : List Node) : ∀ ord : Nat,
    (∀ c ∈ l, pyEndsWith (pyCasefold c.type) "_command" = true →
      ∃ cmd, parse_command fuel c = Except.ok cmd) →
    ∃ cmds, buildCommands fuel l ord = Except.ok (cmds, ord + cmdCount l) ∧
      cmds.length = cmdCount l := by
  induction l with
  | nil =>
    intro ord _
    exact ⟨[], by simp [buildCommands, cmdCount], by simp [cmdCount]⟩
  | cons c rest ih =>
    intro ord h
    have hrest := fun x hx => h x (List.mem_cons_of_mem c hx)
    cases hcmd : pyEndsWith (pyCasefold c.type) "_command" with
    | true =>
      obtain ⟨cmd, hok⟩ := h c (List.mem_cons_self c rest) hcmd
      obtain ⟨cmds, hb, hlen⟩ := ih (ord + 1) hrest
      refine ⟨cmd :: cmds, ?_, ?_⟩
      · rw [buildCommands_cmd_step fuel c rest ord cmd hcmd hok, hb]
        simp only [Except.map]
        have : ord + 1 + cmdCount rest = ord + cmdCount (c :: rest) := by
          simp only [cmdCount, List.countP_cons, hcmd, if_true]
          omega
        rw [this]
      · simp only [List.length_cons, cmdCount, List.countP_cons, hcmd, if_true]
        simp only [cmdCount] at hlen
        omega
    | false =>
      have hstep : buildCommands fuel (c :: rest) ord = buildCommands fuel rest ord := by
        cases hcc : (pyCasefold c.type == "comment") with
        | true =>
          exact buildCommands_comment_skip fuel c rest ord (by simpa using hcc)
        | false =>
          rw [buildCommands]
          simp only [hcc, Bool.false_eq_true, if_false, hcmd]
      obtain ⟨cmds, hb, hlen⟩ := ih ord hrest
      refine ⟨cmds, ?_, ?_⟩
      · rw [hstep, hb]
        have : ord + cmdCount rest = ord + cmdCount (c :: rest) := by
          simp [cmdCount, List.countP_cons, hcmd]
        rw [this]
      · simpa [cmdCount, List.countP_cons, hcmd] using hlen

/-- When the command children before `bad` all parse and `bad` fails, the
loop fails with `bad`'s message at ordinal `start + #command nodes before
bad` — every previously built command is discarded. -/
theorem buildCommands_err (fuel : Nat) (pre : List Node) : ∀ (ord : Nat)
    (bad : Node) (rest : List Node) (msg : String),
    (∀ c ∈ pre, pyEndsWith (pyCasefold c.type) "_command" = true →
      ∃ cmd, parse_command fuel c = Except.ok cmd) →
    pyEndsWith (pyCasefold bad.type) "_command" = true →
    parse_command fuel bad = Except.error msg →
    buildCommands fuel (pre ++ bad :: rest) ord = Except.error (msg, ord + cmdCount pre) := by
  induction pre with
  | nil =>
    intro ord bad rest msg _ hbad hfail
    have hnc : (pyCasefold bad.type == "comment") = false := by
      cases hcc : (pyCasefold bad.type == "comment") with
      | false => rfl
      | true =>
        have : pyCasefold bad.type = "comment" := by simpa using hcc
        rw [comment_not_command bad this] at hbad
        cases hbad
    simp only [List.nil_append]
    rw [buildCommands]
    simp only [hnc, Bool.false_eq_true, if_false, hbad, if_true, hfail, cmdCount,
      List.countP_nil, Nat.add_zero]
  | cons c pre ih =>
    intro ord bad rest msg hpre hbad hfail
    have hprerest := fun x hx => hpre x (List.mem_cons_of_mem c hx)
    simp only [List.cons_append]
    cases hcmd : pyEndsWith (pyCasefold c.type) "_command" with
    | true =>
      obtain ⟨cmd, hok⟩ := hpre c (List.mem_cons_self c pre) hcmd
      rw [buildCommands_cmd_step fuel c (pre ++ bad :: rest) ord cmd hcmd hok,
        ih (ord + 1) bad rest msg hprerest hbad hfail]
      simp only [Except.map]
      have : ord + 1 + cmdCount pre = ord + cmdCount (c :: pre) := by
        simp only [cmdCount, List.countP_cons, hcmd, if_true]
        omega
      rw [this]
    | false =>
      have hstep : buildCommands fuel (c :: (pre ++ bad :: rest)) ord =
          buildCommands fuel (pre ++ bad :: rest) ord := by
        cases hcc : (pyCasefold c.type == "comment") with
        | true =>
          exact buildCommands_comment_skip fuel c (pre ++ bad :: rest) ord (by simpa using hcc)
        | false =>
          rw [buildCommands]
          simp only [hcc, Bool.false_eq_true, if_false, hcmd]
      rw [hstep, ih ord bad rest msg hprerest hbad hfail]
      have : ord + cmdCount pre = ord + cmdCount (c :: pre) := by
        simp [cmdCount, List.countP_cons, hcmd]
      rw [this]

/-- `dropWhile` keeps a list whose head already fails the predicate. -/
theorem dropWhile_eq_self_of_head (p : Char → Bool) (l : List Char)
    (h : ∀ c, l.head? = some c → p c = false) : l.dropWhile p = l := by
  cases l with
  | nil => rfl
  | cons a t =>
    rw [List.dropWhile_cons, h a rfl]
    simp

/-- Python `strip(chars)` on `a ++ inner ++ b` with stripped wrapper
characters `a`, `b` removes exactly the wrapper when `inner` has no stripped
character at either edge. -/
theorem pyStripChars_wrap (chars : List Char) (a b : Char) (l : List Char)
    (ha : a ∈ chars) (hb : b ∈ chars)
    (hhead : ∀ c, l.head? = some c → c ∉ chars)
    (hlast : ∀ c, l.getLast? = some c → c ∉ chars) :
    pyStripChars (a :: (l ++ [b])) chars = l := by
  unfold pyStripChars
  cases l with
  | nil => simp [List.dropWhile_cons, ha, hb]
  | cons x t =>
    have hx : x ∉ chars := hhead x rfl
    have hstop : ∀ c, ((x :: t).reverse).head? = some c → c ∉ chars := by
      intro c hc
      apply hlast
      rw [← List.head?_reverse]
      exact hc
    have h1 : (a :: ((x :: t) ++ [b])).dropWhile (fun c => decide (c ∈ chars)) =
        (x :: t) ++ [b] := by
      rw [List.dropWhile_cons]
      simp only [ha, decide_True, if_true]
      rw [List.cons_append, List.dropWhile_cons]
      simp [hx]
    have h2 : (((x :: t) ++ [b]).reverse).dropWhile (fun c => decide (c ∈ chars)) =
        (x :: t).reverse := by
      rw [List.reverse_append]
      simp only [List.reverse_singleton, List.singleton_append]
      rw [List.dropWhile_cons]
      simp only [hb, decide_True, if_true]
      exact dropWhile_eq_self_of_head _ _ (fun c hc => by simpa using hstop c hc)
    rw [h1, h2, List.reverse_reverse]

/-! ### Concrete example trees, used by the witnesses and counterexamples -/

/-- A `string` wrapper holding a raw single-quoted token. -/
def exStringNode (v : String) : Node :=
  .mk "string" "" true false 0 0 0 0 [.mk "raw_string" ("'" ++ v ++ "'") true false 0 0 0 0 []]

def exSinglefile (p : String) : Node :=
  .mk "singlefile_clause" "" true false 0 0 0 0 [exStringNode p]

def exContent (v : String) : Node :=
  .mk "content_clause" "" true false 0 0 0 0 [exStringNode v]

def exCreateCmd : Node :=
  .mk "create_command" "" true false 0 0 0 0 [exSinglefile "a.py", exContent "x = 1"]

def exComment : Node := .mk "comment" "-- note" false false 0 0 0 0 []

def exSelectCmd : Node := .mk "select_command" "" true false 0 0 0 0 []

def exRootOK : Node :=
  .mk "source_file" "" true false 0 0 0 0 [exCreateCmd, exComment, exCreateCmd]

def exRootBad : Node :=
  .mk "source_file" "" true false 0 0 0 0 [exCreateCmd, exSelectCmd]

def exErrorNode : Node := .mk "ERROR" "" true true 2 4 3 9 []

def exRootErr : Node := .mk "source_file" "" true true 0 0 0 0 [exErrorNode]

def exLineMarker (v : String) : Node :=
  .mk "linemarker" "" true false 0 0 0 0
    [.mk "LINE" "LINE" false false 0 0 0 0 [], exStringNode v]

def exRelposBeforeafter : Node :=
  .mk "relpos_beforeafter" "" true false 0 0 0 0
    [.mk "AFTER" "AFTER" false false 0 0 0 0 [], exLineMarker "10"]

def exRelposBai : Node := .mk "relpos_bai" "" true false 0 0 0 0 [exRelposBeforeafter]

def exInsertClause : Node := .mk "insert_clause" "" true false 0 0 0 0 [exRelposBai]

def exRelIndent : Node :=
  .mk "relative_indentation" "" true false 0 0 0 0 [.mk "number" "1" false false 0 0 0 0 []]

def exMoveDest : Node :=
  .mk "update_move_clause_destination" "" true false 0 0 0 0 [exInsertClause, exRelIndent]

def exMoveDestNoIndent : Node :=
  .mk "update_move_clause_destination" "" true false 0 0 0 0 [exInsertClause]

def exMoveSource : Node := .mk "marker_or_segment" "" true false 0 0 0 0 [exLineMarker "5"]

def exMoveNode : Node :=
  .mk "update_move_region_clause" "" true false 0 0 0 0 [exMoveSource, exMoveDest]

def exMoveNodeNoIndent : Node :=
  .mk "update_move_region_clause" "" true false 0 0 0 0 [exMoveSource, exMoveDestNoIndent]

/-- A bare raw-string token node with the given raw text. -/
def rawStringNode (text : String) : Node := .mk "raw_string" text true false 0 0 0 0 []

def exEscapedSingleQuote : Node :=
  .mk "single_quoted_string" "'it\\'s ok'" true false 0 0 0 0 []

def ribPrefixNode (d : String) : Node :=
  .mk "relative_indent_prefix" ("@" ++ d ++ ":") false false 0 0 0 0 []

def ribContentNode (t : String) : Node := .mk "match_any_char" t false false 0 0 0 0 []

def ribLineNode (d t : String) : Node :=
  .mk "relative_indent_line" "" true false 0 0 0 0 [ribPrefixNode d, ribContentNode t]

def ribBlockNode (ls : List (String × String)) : Node :=
  .mk "relative_indent_block" "" true false 0 0 0 0 (ls.map fun p => ribLineNode p.1 p.2)

def exRibFooBlock : Node := ribBlockNode [("0", "def foo():"), ("1", "pass")]

/-- A block whose single line has an indent-prefix but no content node —
the only line shape `parse_relative_indent_block` survives. -/
def exRibPrefixOnlyBlock : Node :=
  .mk "relative_indent_block" "" true false 0 0 0 0
    [.mk "relative_indent_line" "" true false 0 0 0 0 [ribPrefixNode "0"]]

/-- A `create_command` whose content clause holds the `@0:`/`@1:` block. -/
def exCreateRibCmd : Node :=
  .mk "create_command" "" true false 0 0 0 0
    [exSinglefile "a.py", .mk "content_clause" "" true false 0 0 0 0 [exRibFooBlock]]

/-- A script tree holding only that `create_command`. -/
def exRootRib : Node := .mk "source_file" "" true false 0 0 0 0 [exCreateRibCmd]

/-- An `UpdateCommand` whose action is a cross-file move. -/
def exCrossFileMoveCmd : Command :=
  .update "update" (.single ⟨"a.py"⟩)
    (.move { region := .bow .body, insert_position := .bow .body,
             to_other_file := some ⟨"b.py"⟩, relative_indentation := none }) none

/-- A root whose `ERROR` node comes after a well-formed command node. -/
def exRootCmdErr : Node :=
  .mk "source_file" "" true true 0 0 0 0 [exCreateCmd, exErrorNode]

/-! ### The claims -/

/-- C1: for every input, `parse_script` returns `(commands, diagnostics)`
with at most one of the two lists non-empty (both may be empty), and any
exception raised while building commands is caught and converted into
exactly one synthetic `ParseError` with `line = 0`, `column = 0`, the
generic suggestion, the exception's description as message, and the last
ordinal reached; `parse_script` is a total function, so it never raises. -/
theorem c1_output_contract_and_exception_wrapping :
    (∀ (fuel : Nat) (root : Node) (ct : String),
      (parse_script fuel root ct).1 = [] ∨ (parse_script fuel root ct).2 = []) ∧
    (∀ (fuel : Nat) (root : Node) (ct msg : String) (ord : Nat),
      collect_parse_errors root ct 1 none = [] →
      buildCommands fuel root.children 1 = Except.error (msg, ord) →
      parse_script fuel root ct =
        ([], [⟨ord, msg, 0, 0, "Revise your CEDARScript syntax."⟩])) := by
  constructor
  · intro fuel root ct
    simp only [parse_script]
    split
    · split
      · right
        rfl
      · left
        rfl
    · left
      rfl
  · intro fuel root ct msg ord hc hb
    simp only [parse_script, hc, hb, List.isEmpty_nil, if_true]

/-- Witness for C1 at a concrete script tree: a well-formed `create_command`
followed by a `select_command`, whose builder raises `ValueError`. -/
theorem c1_witness :
    collect_parse_errors exRootBad "" 1 none = [] ∧
    buildCommands 8 exRootBad.children 1 =
      Except.error ("Unexpected command type: select_command", 2) ∧
    parse_script 8 exRootBad "" =
      ([], [⟨2, "Unexpected command type: select_command", 0, 0,
        "Revise your CEDARScript syntax."⟩]) :=
  ⟨rfl, rfl, c1_output_contract_and_exception_wrapping.2 8 exRootBad ""
    "Unexpected command type: select_command" 2 rfl rfl⟩

/-- C2: when the tree contains at least one node of the engine's
error-marker type (under the tree-sitter `has_error` invariant),
`parse_script` returns zero commands together with the full collected
diagnostic list — one diagnostic per `ERROR` node — and every such
diagnostic has 1-based line and column. -/
theorem c2_error_nodes_short_circuit (fuel : Nat) (root : Node) (ct : String)
    (hwf : errFlagsWF root = true) (herr : 0 < countERROR root) :
    parse_script fuel root ct = ([], collect_parse_errors root ct 1 none) ∧
    (collect_parse_errors root ct 1 none).length = countERROR root ∧
    ∀ e ∈ collect_parse_errors root ct 1 none, 1 ≤ e.line ∧ 1 ≤ e.column := by
  have hlen := collect_len root ct 1 none hwf
  have hne : (collect_parse_errors root ct 1 none).isEmpty = false := by
    cases hcol : collect_parse_errors root ct 1 none with
    | nil =>
      rw [hcol] at hlen
      simp only [List.length_nil] at hlen
      omega
    | cons a l => rfl
  refine ⟨?_, hlen, fun e he => (collect_mem root ct 1 none e he).2⟩
  simp only [parse_script, hne, Bool.false_eq_true, if_false]

/-- Witness for C2: a tree holding one `ERROR` node. -/
theorem c2_witness :
    errFlagsWF exRootErr = true ∧ 0 < countERROR exRootErr ∧
    (parse_script 3 exRootErr "0123456789" =
        ([], collect_parse_errors exRootErr "0123456789" 1 none) ∧
      (collect_parse_errors exRootErr "0123456789" 1 none).length = countERROR exRootErr ∧
      ∀ e ∈ collect_parse_errors exRootErr "0123456789" 1 none,
        1 ≤ e.line ∧ 1 ≤ e.column) :=
  ⟨rfl, by decide, c2_error_nodes_short_circuit 3 exRootErr "0123456789" rfl (by decide)⟩

/-- C3: on a tree with no structural errors whose command children all
parse, `parse_script` returns exactly one `Command` per top-level command
node and no diagnostics; the ordinal starts at 1 and the loop ends at
`1 + cmdCount`, advancing by exactly one per command node, and comment
nodes neither advance the ordinal nor produce a `Command`. -/
theorem c3_wellformed_command_counting (fuel : Nat) (root : Node) (ct : String)
    (hE : collect_parse_errors root ct 1 none = [])
    (hok : ∀ c ∈ root.children, pyEndsWith (pyCasefold c.type) "_command" = true →
      ∃ cmd, parse_command fuel c = Except.ok cmd) :
    (∃ cmds, buildCommands fuel root.children 1 =
        Except.ok (cmds, 1 + cmdCount root.children) ∧
      parse_script fuel root ct = (cmds, []) ∧
      cmds.length = cmdCount root.children) ∧
    (∀ (c : Node) (rest : List Node) (ord : Nat), pyCasefold c.type = "comment" →
      buildCommands fuel (c :: rest) ord = buildCommands fuel rest ord) := by
  obtain ⟨cmds, hb, hlen⟩ := buildCommands_ok fuel root.children 1 hok
  refine ⟨⟨cmds, hb, ?_, hlen⟩,
    fun c rest ord hc => buildCommands_comment_skip fuel c rest ord hc⟩
  simp only [parse_script, hE, List.isEmpty_nil, if_true, hb]

/-- Witness for C3: two `create_command` nodes with a comment between them. -/
theorem c3_witness :
    collect_parse_errors exRootOK "" 1 none = [] ∧
    cmdCount exRootOK.children = 2 ∧
    ∃ cmds, buildCommands 8 exRootOK.children 1 =
        Except.ok (cmds, 1 + cmdCount exRootOK.children) ∧
      parse_script 8 exRootOK "" = (cmds, []) ∧
      cmds.length = cmdCount exRootOK.children := by
  have hok : ∀ c ∈ exRootOK.children, pyEndsWith (pyCasefold c.type) "_command" = true →
      ∃ cmd, parse_command 8 c = Except.ok cmd := by
    intro c hc harg
    have hc' : c = exCreateCmd ∨ c = exComment ∨ c = exCreateCmd := by
      simpa [exRootOK, Node.children] using hc
    rcases hc' with rfl | rfl | rfl
    · exact ⟨Command.create "create" "a.py" "x = 1", rfl⟩
    · exact absurd harg (by decide)
    · exact ⟨Command.create "create" "a.py" "x = 1", rfl⟩
  exact ⟨rfl, rfl, (c3_wellformed_command_counting 8 exRootOK "" rfl hok).1⟩

/-- C9: command construction is atomic across the whole script — if the Nth
top-level command node fails to build, every command built for the earlier
nodes is discarded and `parse_script` returns `([], [e])` for a single
synthetic `ParseError` whose ordinal is N. -/
theorem c9_atomic_command_construction (fuel : Nat) (root : Node) (ct : String)
    (pre : List Node) (bad : Node) (rest : List Node) (msg : String)
    (hsplit : root.children = pre ++ bad :: rest)
    (hE : collect_parse_errors root ct 1 none = [])
    (hpre : ∀ c ∈ pre, pyEndsWith (pyCasefold c.type) "_command" = true →
      ∃ cmd, parse_command fuel c = Except.ok cmd)
    (hbad : pyEndsWith (pyCasefold bad.type) "_command" = true)
    (hfail : parse_command fuel bad = Except.error msg) :
    parse_script fuel root ct =
      ([], [⟨1 + cmdCount pre, msg, 0, 0, "Revise your CEDARScript syntax."⟩]) := by
  have hb := buildCommands_err fuel pre 1 bad rest msg hpre hbad hfail
  rw [← hsplit] at hb
  simp only [parse_script, hE, List.isEmpty_nil, if_true, hb]

/-- Witness for C9: the second top-level command node (`select_command`, one
of the types `parse_command` rejects) fails, so the ordinal is 2 and the
already-built first command is discarded. -/
theorem c9_witness :
    parse_script 8 exRootBad "" =
      ([], [⟨1 + cmdCount [exCreateCmd], "Unexpected command type: select_command", 0, 0,
        "Revise your CEDARScript syntax."⟩]) := by
  apply c9_atomic_command_construction 8 exRootBad "" [exCreateCmd] exSelectCmd []
    "Unexpected command type: select_command" rfl rfl ?_ rfl rfl
  intro c hc harg
  have hc' : c = exCreateCmd := by simpa using hc
  subst hc'
  exact ⟨Command.create "create" "a.py" "x = 1", rfl⟩

/-- C10: every diagnostic the structural error collector produces carries
`command_ordinal = 1`, regardless of how many command nodes precede the
error node — the facade calls the collector once with ordinal 1, threaded
unchanged through the recursion — and when the collector reports anything,
`parse_script` returns exactly that list. -/
theorem c10_collector_ordinal_fixed (root : Node) (ct : String) :
    (∀ e ∈ collect_parse_errors root ct 1 none, e.command_ordinal = 1) ∧
    (∀ fuel : Nat, collect_parse_errors root ct 1 none ≠ [] →
      parse_script fuel root ct = ([], collect_parse_errors root ct 1 none)) := by
  constructor
  · exact fun e he => (collect_mem root ct 1 none e he).1
  · intro fuel hne
    have hb : (collect_parse_errors root ct 1 none).isEmpty = false := by
      cases hcol : collect_parse_errors root ct 1 none with
      | nil => exact absurd hcol hne
      | cons a l => rfl
    simp only [parse_script, hb, Bool.false_eq_true, if_false]

/-- Witness for C10: an `ERROR` node preceded by a command node still gets
ordinal 1. -/
theorem c10_witness :
    (∀ e ∈ collect_parse_errors exRootCmdErr "0123456789" 1 none,
      e.command_ordinal = 1) ∧
    parse_script 8 exRootCmdErr "0123456789" =
      ([], collect_parse_errors exRootCmdErr "0123456789" 1 none) :=
  ⟨(c10_collector_ordinal_fixed exRootCmdErr "0123456789").1,
   (c10_collector_ordinal_fixed exRootCmdErr "0123456789").2 8 (by decide)⟩

/-- Counterexample to C4 as stated: decoding does NOT strip exactly one
layer of quotes — Python's `strip` removes ALL leading/trailing quote
characters, so a token whose inner content begins and ends with a quote
character loses those inner quotes too: the raw token `"'hi'"` decodes to
`hi`, not to `'hi'`. -/
theorem c4_counterexample :
    parse_string (rawStringNode "\"'hi'\"") = Except.ok "hi" ∧
    ("hi" : String) ≠ "'hi'" :=
  ⟨rfl, by decide⟩

/-- C4 (amended): decoding strips ALL leading and trailing quote characters
(so it coincides with a one-layer strip exactly when the inner content does
not begin or end with a quote character), and the escaped-single-quote style
first unescapes and then strips, so the token `'it\'s ok'` decodes to
`it's ok`. -/
theorem c4_quote_stripping_amended :
    (∀ inner : List Char,
      (∀ c, inner.head? = some c → c ∉ quoteChars) →
      (∀ c, inner.getLast? = some c → c ∉ quoteChars) →
      parse_string (rawStringNode ⟨'"' :: (inner ++ ['"'])⟩) = Except.ok ⟨inner⟩) ∧
    parse_string exEscapedSingleQuote = Except.ok "it's ok" := by
  refine ⟨?_, rfl⟩
  intro inner hhead hlast
  show Except.ok (pyStrip ⟨'"' :: (inner ++ ['"'])⟩ quoteChars) = Except.ok ⟨inner⟩
  have hw := pyStripChars_wrap quoteChars '"' '"' inner (by decide) (by decide) hhead hlast
  simp [pyStrip, hw]

/-- Witness for C4's amended universal clause at `inner = "hi"`. -/
theorem c4_witness :
    parse_string (rawStringNode ⟨'"' :: (['h', 'i'] ++ ['"'])⟩) =
      Except.ok ⟨['h', 'i']⟩ :=
  c4_quote_stripping_amended.1 ['h', 'i']
    (fun c hc => by simp at hc; subst hc; decide)
    (fun c hc => by simp at hc; subst hc; decide)

/-- C5: the code cannot decode any relative-indent line — `node.text` is
bytes in the external engine (the module calls `.decode('utf8')` on it
everywhere else), so `int(indent_prefix.text.strip('@:'))` raises
`TypeError` on every line holding both an indent-prefix and content.  On
the claim's own `@0:`/`@1:` example the decoder therefore raises instead of
emitting `def foo():` and a 4-space-indented `pass`; the facade converts
the exception into a single synthetic diagnostic.  Only a block none of
whose lines carries both parts decodes, to the empty join. -/
theorem c5_bytes_strip_type_error :
    parse_relative_indent_block exRibFooBlock =
      Except.error "a bytes-like object is required, not 'str'" ∧
    parse_script 8 exRootRib "" =
      ([], [⟨1, "a bytes-like object is required, not 'str'", 0, 0,
        "Revise your CEDARScript syntax."⟩]) ∧
    parse_relative_indent_block exRibPrefixOnlyBlock = Except.ok "" :=
  ⟨rfl, rfl, rfl⟩

/-- C6: `files_to_change` of an `UpdateCommand` whose action is a cross-file
move appends the `SingleFileClause` OBJECT, not its `file_path` string —
contradicting both the claim and the method's own `tuple[str, ...]` return
annotation.  The other variants behave as claimed. -/
theorem c6_files_to_change_eval :
    exCrossFileMoveCmd.files_to_change = [.path "a.py", .clause ⟨"b.py"⟩] ∧
    exCrossFileMoveCmd.files_to_change ≠ [.path "a.py", .path "b.py"] ∧
    (Command.create "create" "a.py" "x").files_to_change = [.path "a.py"] ∧
    (Command.rmFile "rm_file" "a.py").files_to_change = [.path "a.py"] ∧
    (Command.mvFile "mv_file" "a.py" "b.py").files_to_change =
      [.path "a.py", .path "b.py"] ∧
    (Command.update "update" (.single ⟨"a.py"⟩)
        (.move { region := .bow .body, insert_position := .bow .body,
                 to_other_file := none, relative_indentation := none })
        none).files_to_change = [.path "a.py"] := by
  refine ⟨rfl, ?_, rfl, rfl, rfl, rfl⟩
  decide

/-- C7: the built `MoveClause` carries the insert clause's relative marker
as `insert_position`, the destination's relative indentation when present
(`none` otherwise), and `to_other_file = none` — the builder never
populates `to_other_file`. -/
theorem c7_move_clause_structure :
    (∀ (fuel : Nat) (node : Node) (mc : MoveClause),
      parse_move_clause fuel node = Except.ok mc → mc.to_other_file = none) ∧
    parse_move_clause 20 exMoveNode = Except.ok
      { region := .marker ⟨.line, "5", none⟩,
        insert_position := .relMarker ⟨.after, .line, "10", none⟩,
        to_other_file := none, relative_indentation := some 1 } ∧
    parse_move_clause 20 exMoveNodeNoIndent = Except.ok
      { region := .marker ⟨.line, "5", none⟩,
        insert_position := .relMarker ⟨.after, .line, "10", none⟩,
        to_other_file := none, relative_indentation := none } := by
  refine ⟨?_, rfl, rfl⟩
  intro fuel node mc h
  unfold parse_move_clause at h
  split at h
  · simp at h
  · split at h
    · simp at h
    · split at h
      · simp at h
      · split at h
        · simp at h
        · injection h with h2
          rw [← h2]

/-- Witness for C7's universal clause at the concrete move node. -/
theorem c7_witness :
    ({ region := .marker ⟨.line, "5", none⟩,
       insert_position := .relMarker ⟨.after, .line, "10", none⟩,
       to_other_file := none, relative_indentation := some 1 } : MoveClause).to_other_file =
      none :=
  c7_move_clause_structure.1 20 exMoveNode _ c7_move_clause_structure.2.1

/-- C8: a `Marker` renders as `<kind> '<value>'`, with ` at offset N`
appended exactly when the offset is present; a `RelativeMarker` additionally
appends ` (<qualifier>)` exactly when the qualifier is not `AT`. -/
theorem c8_marker_rendering :
    (∀ (k : MarkerType) (v : String) (o : Int),
      Marker.render ⟨k, v, some o⟩ =
        (k.value ++ " '" ++ v ++ "'") ++ " at offset " ++ toString o) ∧
    (∀ (k : MarkerType) (v : String),
      Marker.render ⟨k, v, none⟩ = k.value ++ " '" ++ v ++ "'") ∧
    (∀ (k : MarkerType) (v : String) (o : Option Int),
      RelativeMarker.render ⟨.at_, k, v, o⟩ = Marker.render ⟨k, v, o⟩) ∧
    (∀ (q : RelativePositionType) (k : MarkerType) (v : String) (o : Option Int),
      q ≠ .at_ →
      RelativeMarker.render ⟨q, k, v, o⟩ =
        Marker.render ⟨k, v, o⟩ ++ " (" ++ q.value ++ ")") ∧
    Marker.render ⟨.function, "foo", some 2⟩ = "function 'foo' at offset 2" ∧
    RelativeMarker.render ⟨.before, .function, "foo", some 2⟩ =
      "function 'foo' at offset 2 (before)" ∧
    RelativeMarker.render ⟨.at_, .function, "foo", some 2⟩ =
      "function 'foo' at offset 2" := by
  refine ⟨fun k v o => rfl, fun k v => rfl, fun k v o => rfl, ?_, rfl, rfl, rfl⟩
  intro q k v o hq
  cases q with
  | at_ => exact absurd rfl hq
  | before => rfl
  | after => rfl
  | inside => rfl

/-- Witness for C8's qualifier clause at `INSIDE`. -/
theorem c8_witness :
    RelativeMarker.render ⟨.inside, .class_, "C", none⟩ =
      Marker.render ⟨.class_, "C", none⟩ ++ " (" ++
        RelativePositionType.value .inside ++ ")" :=
  c8_marker_rendering.2.2.2.1 .inside .class_ "C" none (by decide)

end Cedar
